import Mathlib

/-!
Shallow embedding of `src/js/calendar.js` (the Union Beach Memorial Library
calendar page controller): the event record model built by `initCalendar`,
the `applyFilters` / `clearFilters` / `applySorting` pipeline, and the
iCalendar / Google Calendar export paths, together with theorems settling
the specification's claims about them.

Modelling conventions:
* A JavaScript `Date` value is either valid (a `DateTime` below) or
  `Invalid Date`; date-valued fields carry `Option DateTime`, with `none`
  standing for `Invalid Date` (and, where noted, for `undefined`).
* The local time zone is identified with UTC, so `toISOString` reads the
  civil fields off directly.  The spec leaves time-zone handling open.
* Functions that can throw are embedded in `Except String`, the error
  being the thrown exception's message.
* `Array.prototype.sort` is required by ECMAScript to be stable, so it is
  modelled by insertion sort over the relation "the comparator does not
  order the pair strictly the other way".
-/

namespace UBCal

/-- A valid JavaScript `Date` value, by its civil calendar fields with the
local zone taken as UTC: `year` (`getFullYear`), zero-based `month`
(`getMonth`, 0–11), day of month (`getDate`, 1-based) and the time of day
in milliseconds.  For normalized fields, lexicographic comparison agrees
with comparison of epoch milliseconds. -/
structure DateTime where
  year : Int
  month : Nat
  day : Nat
  ms : Nat
  deriving DecidableEq

/-- `a <= b` as JavaScript compares `Date` values (epoch milliseconds):
lexicographic on the civil fields. -/
def dtLeB (a b : DateTime) : Bool :=
  (a.year < b.year) ||
    (a.year == b.year && ((a.month < b.month) ||
      (a.month == b.month && ((a.day < b.day) ||
        (a.day == b.day && a.ms ≤ b.ms)))))

/-- `a < b` on `Date` values. -/
def dtLtB (a b : DateTime) : Bool := !(dtLeB b a)

/-- Gregorian leap-year test. -/
def isLeapYear (y : Int) : Bool :=
  (y % 4 == 0 && y % 100 != 0) || y % 400 == 0

/-- Number of days of zero-based month `m` of year `y`. -/
def daysInMonth (y : Int) (m : Nat) : Nat :=
  match m with
  | 0 => 31
  | 1 => if isLeapYear y then 29 else 28
  | 2 => 31
  | 3 => 30
  | 4 => 31
  | 5 => 30
  | 6 => 31
  | 7 => 31
  | 8 => 30
  | 9 => 31
  | 10 => 30
  | _ => 31

/-- `today.setHours(0, 0, 0, 0)`: the same day at local midnight. -/
def dtMid (t : DateTime) : DateTime := { t with ms := 0 }

/-- `d.setDate(d.getDate() + 7)`: seven days later, rolling into the next
month (or year) when the day of month overflows. -/
def addDays7 (t : DateTime) : DateTime :=
  let d := t.day + 7
  if d ≤ daysInMonth t.year t.month then { t with day := d }
  else if t.month == 11 then
    { year := t.year + 1, month := 0, day := d - 31, ms := t.ms }
  else
    { t with month := t.month + 1, day := d - daysInMonth t.year t.month }

/-- `d.setMonth(d.getMonth() + 1)` with ECMAScript `MakeDay` semantics: the
month index is incremented (rolling the year), and a day of month beyond
the target month's length then rolls into the following month — e.g.
January 31 becomes "February 31" = March 3. -/
def jsAddMonth (t : DateTime) : DateTime :=
  let y := if t.month == 11 then t.year + 1 else t.year
  let m := if t.month == 11 then 0 else t.month + 1
  if t.day ≤ daysInMonth y m then { year := y, month := m, day := t.day, ms := t.ms }
  else if m == 11 then { year := y + 1, month := 0, day := t.day - 31, ms := t.ms }
  else { year := y, month := m + 1, day := t.day - daysInMonth y m, ms := t.ms }

/-- `new Date(start.getTime() + 60 * 60 * 1000)`: one hour later, rolling
the day (and month, year) on overflow past midnight. -/
def addHour (t : DateTime) : DateTime :=
  let m := t.ms + 3600000
  if m < 86400000 then { t with ms := m }
  else
    let d := t.day + 1
    if d ≤ daysInMonth t.year t.month then { t with day := d, ms := m - 86400000 }
    else if t.month == 11 then
      { year := t.year + 1, month := 0, day := 1, ms := m - 86400000 }
    else { t with month := t.month + 1, day := 1, ms := m - 86400000 }

/-- Two-digit zero-padded decimal. -/
def pad2 (n : Nat) : String := if n < 10 then "0" ++ toString n else toString n

/-- Four-digit zero-padded decimal (years 0–9999, the range in which
`toISOString` prints exactly four year digits). -/
def pad4 (n : Int) : String :=
  let k := n.toNat
  if k < 10 then "000" ++ toString k
  else if k < 100 then "00" ++ toString k
  else if k < 1000 then "0" ++ toString k
  else toString k

/-- `date.toISOString().replace(/[-:]/g, '').split('.')[0] + 'Z'`: the
`YYYYMMDDThhmmssZ` UTC timestamp form used by both exporters (milliseconds
are truncated away by the `split('.')`). -/
def formatDate (t : DateTime) : String :=
  pad4 t.year ++ pad2 (t.month + 1) ++ pad2 t.day ++ "T" ++
    pad2 (t.ms / 3600000) ++ pad2 (t.ms % 3600000 / 60000) ++
    pad2 (t.ms % 60000 / 1000) ++ "Z"

/-- JavaScript `x || dflt` for a nullable string: `null`/`undefined` and
the empty string are falsy. -/
def jsOrStr (x : Option String) (dflt : String) : String :=
  match x with
  | some s => if s == "" then dflt else s
  | none => dflt

/-- The host DOM data of one `[data-event]` element, as the controller
reads it.  Date-valued attributes are stored as the result of parsing with
`new Date(...)`: `some d` when the attribute string parses to the valid
date `d`, `none` when it is missing, empty, or unparseable
(`Invalid Date`).  `extractFault` models the host DOM throwing during one
of `extractEventData`'s reads (the reason for its `try`/`catch`). -/
structure RawElem where
  typeAttr : Option String := none
  dateParsed : Option DateTime := none
  titleText : Option String := none
  exportId : Option String := none
  descText : Option String := none
  locText : Option String := none
  startParsed : Option DateTime := none
  extractFault : Bool := false
  deriving DecidableEq

/-- One entry of `allEvents` together with its element's state: `display`
is `element.style.display` and `hidden` the `data-hidden` attribute
(`none` when the attribute is absent). -/
structure EventRec where
  raw : RawElem := {}
  display : String := ""
  hidden : Option String := none
  type : String := "all"
  date : Option DateTime := none
  title : String := ""
  id : String := ""
  deriving DecidableEq

/-- The record constructor inside `initCalendar`'s `map`:
`type: getAttribute('data-event-type') || 'all'`,
`date: getAttribute('data-event-date') || ''` (kept here as its parse),
`title: ...textContent.trim() || ''`, `id: ...getAttribute(...) || ''`. -/
def initRecord (r : RawElem) : EventRec :=
  { raw := r
    display := ""
    hidden := none
    type := jsOrStr r.typeAttr "all"
    date := r.dateParsed
    title := jsOrStr (r.titleText.map String.trim) ""
    id := jsOrStr r.exportId "" }

/-- `eventDate >= today`; false for `Invalid Date` (NaN comparisons). -/
def dGeB (d : Option DateTime) (t : DateTime) : Bool :=
  match d with
  | some x => dtLeB t x
  | none => false

/-- `eventDate <= t`; false for `Invalid Date`. -/
def dLeB (d : Option DateTime) (t : DateTime) : Bool :=
  match d with
  | some x => dtLeB x t
  | none => false

/-- `eventDate.getMonth() === t.getMonth() && eventDate.getFullYear() ===
t.getFullYear()`; false for `Invalid Date` (NaN is equal to nothing). -/
def monthYearEq (d : Option DateTime) (t : DateTime) : Bool :=
  match d with
  | some x => x.month == t.month && x.year == t.year
  | none => false

/-- The body of `applyFilters`'s `forEach`: whether one record passes the
currently selected type and date filters, `now` being the wall clock
(`new Date()`), zeroed to local midnight by `setHours(0,0,0,0)`.  The
final catch-all arm is the `switch`'s missing `default`: an unrecognized
date filter value leaves the record visible. -/
def isVisibleRec (selectedType selectedDate : String) (now : DateTime)
    (e : EventRec) : Bool :=
  let v := !(selectedType != "all" && e.type != selectedType)
  if selectedDate != "all" && v then
    let today := dtMid now
    match selectedDate with
    | "upcoming" => dGeB e.date today
    | "this-week" => dGeB e.date today && dLeB e.date (addDays7 today)
    | "this-month" => monthYearEq e.date today && dGeB e.date today
    | "next-month" => monthYearEq e.date (jsAddMonth today)
    | _ => v
  else v

/-- The show/hide branch of `applyFilters`: sets `style.display` and the
`data-hidden` attribute on the record's element. -/
def markVisibility (b : Bool) (e : EventRec) : EventRec :=
  if b then { e with display := "", hidden := some "false" }
  else { e with display := "none", hidden := some "true" }

/-- `Showing N event(s)` status message. -/
def showingMsg (n : Nat) : String :=
  "Showing " ++ toString n ++ " event" ++ (if n != 1 then "s" else "")

/-- Result of `applyFilters`: the updated records, the visible count, and
the live status message. -/
structure FilterOut where
  recs : List EventRec
  visibleCount : Nat
  status : String
  deriving DecidableEq

/-- `applyFilters()`, with the two `<select>` values (after their `||`
defaults) and the current wall clock passed explicitly. -/
def applyFilters (selectedType selectedDate : String) (now : DateTime)
    (events : List EventRec) : FilterOut :=
  let recs := events.map fun e =>
    markVisibility (isVisibleRec selectedType selectedDate now e) e
  let n := events.countP (isVisibleRec selectedType selectedDate now)
  { recs := recs, visibleCount := n, status := showingMsg n }

/-- Whether the JavaScript sort comparator for `sortType` returns a value
`> 0` on `(a, b)`.  The date comparators subtract epoch milliseconds, so
an `Invalid Date` yields NaN, which is not `> 0`; `localeCompare` is
modelled as code-unit string comparison; an unknown key compares `0`. -/
def cmpGtB (sortType : String) (a b : EventRec) : Bool :=
  match sortType with
  | "date-asc" =>
    (match a.date, b.date with
     | some x, some y => dtLtB y x
     | _, _ => false)
  | "date-desc" =>
    (match a.date, b.date with
     | some x, some y => dtLtB x y
     | _, _ => false)
  | "title" => compare a.title b.title == Ordering.gt
  | "type" => compare a.type b.type == Ordering.gt
  | _ => false

/-- The "may stay before" relation induced by the comparator: a stable
sort keeps `a` before `b` exactly when the comparator does not order `b`
strictly first. -/
def sortKeeps (sortType : String) (a b : EventRec) : Prop :=
  cmpGtB sortType a b = false

instance (sortType : String) : DecidableRel (sortKeeps sortType) :=
  fun a b => inferInstanceAs (Decidable (cmpGtB sortType a b = false))

/-- `applySorting`: `[...allEvents].sort(comparator)` followed by
re-appending each element to the container, i.e. the presentation order
becomes the stably sorted order.  ECMAScript requires `Array.prototype.sort`
to be stable, hence the insertion-sort model. -/
def applySorting (sortType : String) (events : List EventRec) : List EventRec :=
  List.insertionSort (sortKeeps sortType) events

/-- Result of `clearFilters`: updated records, the reset control values,
and the status message. -/
structure ClearOut where
  recs : List EventRec
  typeSel : String
  dateSel : String
  sortSel : String
  status : String
  deriving DecidableEq

/-- `clearFilters()`: resets the three controls, marks every record
visible (without re-running `applyFilters`), re-applies the default
`date-asc` sort, and reports `Showing all N events` with the total record
count. -/
def clearFilters (events : List EventRec) : ClearOut :=
  let shown := events.map fun e => { e with display := "", hidden := some "false" }
  { recs := applySorting "date-asc" shown
    typeSel := "all"
    dateSel := "upcoming"
    sortSel := "date-asc"
    status := "Showing all " ++ toString events.length ++ " events" }

/-- The data object returned by `extractEventData` on success.  A missing
`datetime` attribute leaves `startDate` as `undefined` and an unparseable
one makes it `Invalid Date`; both are `none` here, and both make
`formatDate` (i.e. `toISOString`) throw later. -/
structure EventData where
  title : String
  description : String
  location : String
  startDate : Option DateTime
  endDate : Option DateTime
  deriving DecidableEq

/-- JavaScript `String.prototype.replace` with a plain-string pattern:
replaces only the first occurrence. -/
def replaceFirst (s pat repl : String) : String :=
  match s.splitOn pat with
  | [] => s
  | x :: rest =>
    if rest.isEmpty then x else x ++ repl ++ String.intercalate pat rest

/-- `extractEventData(eventElement)`: the whole body runs inside
`try { ... } catch { return null }`; a throwing host DOM read
(`extractFault`) yields `null`.  Otherwise the fields get their `||`
defaults, the location text has its `Location:` label stripped, and
`endDate` is the start plus a fixed one-hour duration. -/
def extractEventData (e : EventRec) : Option EventData :=
  if e.raw.extractFault then none
  else
    some
      { title := jsOrStr (e.raw.titleText.map String.trim) "Library Event"
        description := jsOrStr (e.raw.descText.map String.trim) ""
        location := jsOrStr
          (e.raw.locText.map fun s => (replaceFirst s "Location:" "").trim)
          "Union Beach Memorial Library"
        startDate := e.raw.startParsed
        endDate := e.raw.startParsed.map addHour }

/-- `formatDate` applied to a possibly-absent/invalid date: calling
`toISOString()` on `undefined` or an `Invalid Date` throws
(`RangeError: Invalid time value`), which nothing in the export paths
catches. -/
def fmtOrThrow (d : Option DateTime) : Except String String :=
  match d with
  | some x => Except.ok (formatDate x)
  | none => Except.error "Invalid time value"

/-- `createICalEvent(eventData)`.  The ambient nondeterminism is passed in
explicitly: `uidBase` is the freshly generated `Date.now()-random`
component of the UID and `now` the `new Date()` read for `DTSTAMP`. -/
def createICalEvent (d : EventData) (uidBase : String) (now : DateTime) :
    Except String String := do
  let ds ← fmtOrThrow d.startDate
  let de ← fmtOrThrow d.endDate
  Except.ok ("BEGIN:VEVENT\n" ++
    "UID:" ++ uidBase ++ "@unionbeachlibrary.org\n" ++
    "DTSTAMP:" ++ formatDate now ++ "\n" ++
    "DTSTART:" ++ ds ++ "\n" ++
    "DTEND:" ++ de ++ "\n" ++
    "SUMMARY:" ++ d.title ++ "\n" ++
    "DESCRIPTION:" ++ d.description.replace "\n" "\\n" ++ "\n" ++
    "LOCATION:" ++ d.location ++ "\n" ++
    "STATUS:CONFIRMED\n" ++
    "END:VEVENT\n")

/-- The fixed `VCALENDAR` preamble shared by both iCal exporters. -/
def calHeader : String :=
  "BEGIN:VCALENDAR\nVERSION:2.0\nPRODID:-//Union Beach Memorial Library//Calendar//EN\nCALSCALE:GREGORIAN\n"

/-- `title.replace(/[^a-z0-9]/gi, '-').toLowerCase() + '.ics'`. -/
def sanitizeFileName (title : String) : String :=
  ((title.map fun c => if c.isAlphanum then c else '-').toLower) ++ ".ics"

/-- Observable outcome of `exportSingleEvent`: the offered download (file
name and content), the status message, and the screen-reader
announcement. -/
structure SingleOut where
  file : Option (String × String) := none
  status : Option String := none
  announce : Option String := none
  deriving DecidableEq

/-- `exportSingleEvent(eventElement)`: a `null` extraction is caught and
reported; otherwise the single `VEVENT` is wrapped in a `VCALENDAR` and
offered as a download (and `createICalEvent`'s throw, if any,
propagates). -/
def exportSingleEvent (e : EventRec) (uidBase : String) (now : DateTime) :
    Except String SingleOut :=
  match extractEventData e with
  | none => Except.ok { status := some "Unable to export event" }
  | some d => do
    let ev ← createICalEvent d uidBase now
    Except.ok
      { file := some (sanitizeFileName d.title, calHeader ++ ev ++ "END:VCALENDAR\n")
        announce := some ("Exported " ++ d.title ++ " to calendar") }

/-- The record selection both bulk exports make:
`allEvents.filter((event) => event.element.getAttribute('data-hidden') !== 'true')`. -/
def visibleIn (events : List EventRec) : List EventRec :=
  events.filter fun e => !(e.hidden == some "true")

/-- The refusal message both bulk exports show when nothing is visible. -/
def noEventsMsg : String := "No events to export. Please adjust filters."

/-- Observable outcome of `exportToICal`. -/
structure BulkOut where
  file : Option (String × String) := none
  status : Option String := none
  deriving DecidableEq

/-- `exportToICal()`: refuses when no record is visible; otherwise
concatenates one `VEVENT` per visible record whose extraction succeeded
(a throw from `createICalEvent` aborts the whole export with no file). -/
def exportToICal (events : List EventRec) (uidBase : String) (now : DateTime) :
    Except String BulkOut :=
  let visibleEvents := visibleIn events
  if visibleEvents.length == 0 then Except.ok { status := some noEventsMsg }
  else do
    let body ← visibleEvents.foldlM
      (fun acc e =>
        match extractEventData e with
        | none => Except.ok acc
        | some d => do
          let ev ← createICalEvent d uidBase now
          Except.ok (acc ++ ev))
      ""
    Except.ok
      { file := some ("union-beach-library-events.ics",
          calHeader ++ body ++ "END:VCALENDAR\n")
        status := some ("Exported " ++ toString visibleEvents.length ++ " event" ++
          (if visibleEvents.length != 1 then "s" else "") ++ " to iCal") }

/-- Uppercase hexadecimal digit. -/
def hexDigit (n : Nat) : Char :=
  if n < 10 then Char.ofNat (48 + n) else Char.ofNat (55 + n)

/-- Characters `encodeURIComponent` leaves unescaped. -/
def isUnreservedChar (c : Char) : Bool :=
  c.isAlphanum || c == '-' || c == '_' || c == '.' || c == '!' || c == '~' ||
    c == '*' || c == Char.ofNat 39 || c == '(' || c == ')'

/-- UTF-8 byte sequence of a character. -/
def utf8Bytes (c : Char) : List Nat :=
  let n := c.toNat
  if n < 128 then [n]
  else if n < 2048 then [192 + n / 64, 128 + n % 64]
  else if n < 65536 then [224 + n / 4096, 128 + n / 64 % 64, 128 + n % 64]
  else [240 + n / 262144, 128 + n / 4096 % 64, 128 + n / 64 % 64, 128 + n % 64]

/-- JavaScript `encodeURIComponent`. -/
def encodeURIComponent (s : String) : String :=
  String.join (s.toList.map fun c =>
    if isUnreservedChar c then String.singleton c
    else String.join ((utf8Bytes c).map fun b =>
      "%" ++ String.singleton (hexDigit (b / 16)) ++ String.singleton (hexDigit (b % 16))))

/-- `createGoogleCalendarUrl(eventData)`; formatting an absent/invalid
date throws, as in `createICalEvent`. -/
def createGoogleCalendarUrl (d : EventData) : Except String String := do
  let ds ← fmtOrThrow d.startDate
  let de ← fmtOrThrow d.endDate
  Except.ok ("https://calendar.google.com/calendar/render?action=TEMPLATE" ++
    "&text=" ++ encodeURIComponent d.title ++
    "&dates=" ++ ds ++ "/" ++ de ++
    "&details=" ++ encodeURIComponent d.description ++
    "&location=" ++ encodeURIComponent d.location)

/-- Observable outcome of `exportToGoogleCalendar`: the URL opened in a
new browsing context, if any, and the status message. -/
structure GoogleOut where
  opened : Option String := none
  status : Option String := none
  deriving DecidableEq

/-- `exportToGoogleCalendar()`: refuses when no record is visible;
otherwise exports only the first visible record; a `null` extraction does
nothing at all (the `if (eventData)` guard has no `else`). -/
def exportToGoogleCalendar (events : List EventRec) : Except String GoogleOut :=
  let visibleEvents := visibleIn events
  if visibleEvents.length == 0 then Except.ok { status := some noEventsMsg }
  else
    match visibleEvents.head? with
    | none => Except.ok {}
    | some firstEvent =>
      match extractEventData firstEvent with
      | none => Except.ok {}
      | some d => do
        let url ← createGoogleCalendarUrl d
        Except.ok { opened := some url, status := some "Opening Google Calendar..." }

/-- One user-driven controller operation, for statements quantifying over
arbitrary prior call sequences. -/
inductive ControllerOp where
  | filterOp (selectedType selectedDate : String) (now : DateTime)
  | sortOp (sortType : String)
  | clearOp
  deriving DecidableEq

/-- Effect of one operation on the record collection. -/
def runOp (op : ControllerOp) (events : List EventRec) : List EventRec :=
  match op with
  | .filterOp t d now => (applyFilters t d now events).recs
  | .sortOp k => applySorting k events
  | .clearOp => (clearFilters events).recs

/-- Effect of a sequence of operations, first to last. -/
def runOps (ops : List ControllerOp) (events : List EventRec) : List EventRec :=
  ops.foldl (fun evts op => runOp op evts) events

/-- A record with its element's mutable presentation state reset; two
records with equal `coreOf` behave identically under filtering and
sorting. -/
def coreOf (e : EventRec) : EventRec := { e with display := "", hidden := none }

/-- The multiset of records left visible by an `applyFilters` call (the
order is presentation only). -/
def visibleAfterFilter (t d : String) (now : DateTime)
    (events : List EventRec) : Multiset EventRec :=
  ((applyFilters t d now events).recs.filter fun e => !(e.hidden == some "true"))

/-- Count of records currently visible by the `data-hidden` bookkeeping
the exports consult. -/
def visibleCountOf (events : List EventRec) : Nat :=
  events.countP fun e => !(e.hidden == some "true")

/-- Modelled from claim C1's words: the number of records whose date is on
or after today at local midnight (the upcoming-events count). -/
def upcomingCount (today : DateTime) (events : List EventRec) : Nat :=
  events.countP fun e => dGeB e.date (dtMid today)

/-- Modelled from claim C3's words: the type predicate — the filter is the
wildcard or equals the record's type. -/
def specTypePass (t : String) (e : EventRec) : Bool :=
  t == "all" || e.type == t

/-- Modelled from claim C3's words: year and zero-based month of
"today + 1 month" as a plain calendar-month increment. -/
def specNextMonthOf (today : DateTime) : Int × Nat :=
  if today.month == 11 then (today.year + 1, 0) else (today.year, today.month + 1)

/-- Month/year agreement with a (year, month) pair; false for an invalid
date. -/
def specSameMonthYear (d : Option DateTime) (ym : Int × Nat) : Bool :=
  match d with
  | some x => x.year == ym.1 && x.month == ym.2
  | none => false

/-- Modelled from claim C3's words: the date predicate exactly as the
claim states it, bucket by bucket (an invalid date satisfies no bucket).
Values outside the five listed ones are not constrained by the claim. -/
def specDatePass (selectedDate : String) (today : DateTime) (e : EventRec) : Bool :=
  match selectedDate with
  | "all" => true
  | "upcoming" => dGeB e.date today
  | "this-week" => dGeB e.date today && dLeB e.date (addDays7 today)
  | "this-month" => monthYearEq e.date today && dGeB e.date today
  | "next-month" => specSameMonthYear e.date (specNextMonthOf today)
  | _ => true

/-- Claim C3's visibility predicate: the conjunction of its two
predicates, against today at local midnight. -/
def specVisible (t selectedDate : String) (now : DateTime) (e : EventRec) : Bool :=
  specTypePass t e && specDatePass selectedDate (dtMid now) e

/-- The date predicate of the amended claim C3: as the claim states it,
except that `next-month` refers to the month and year of
`jsAddMonth today` (JavaScript `setMonth` semantics, which skip past the
next month when today's day of month exceeds its length). -/
def amendedDatePass (selectedDate : String) (today : DateTime) (e : EventRec) : Bool :=
  match selectedDate with
  | "all" => true
  | "upcoming" => dGeB e.date today
  | "this-week" => dGeB e.date today && dLeB e.date (addDays7 today)
  | "this-month" => monthYearEq e.date today && dGeB e.date today
  | "next-month" => monthYearEq e.date (jsAddMonth today)
  | _ => true

/-- 2025-01-31, a month-end day on which `setMonth` overflow shows. -/
def dtJan31 : DateTime := { year := 2025, month := 0, day := 31, ms := 0 }

/-- 2025-02-15. -/
def dtFeb15 : DateTime := { year := 2025, month := 1, day := 15, ms := 0 }

/-- 2025-06-15, the reference "today" of the concrete scenarios. -/
def dtJun15 : DateTime := { year := 2025, month := 5, day := 15, ms := 0 }

/-- A workshop record dated in the past (2024-01-10). -/
def recPast : EventRec :=
  initRecord
    { typeAttr := some "workshop"
      dateParsed := some { year := 2024, month := 0, day := 10, ms := 0 }
      startParsed := some { year := 2024, month := 0, day := 10, ms := 36000000 } }

/-- A children's record dated in the future (2026-01-10). -/
def recFuture : EventRec :=
  initRecord
    { typeAttr := some "children"
      dateParsed := some { year := 2026, month := 0, day := 10, ms := 0 }
      startParsed := some { year := 2026, month := 0, day := 10, ms := 36000000 } }

/-- A workshop record dated 2025-02-15. -/
def recFeb15 : EventRec :=
  initRecord { typeAttr := some "workshop", dateParsed := some dtFeb15 }

/-- A second record sharing the date 2025-02-15 (for stability ties). -/
def recFeb15b : EventRec :=
  initRecord { typeAttr := some "adult", dateParsed := some dtFeb15 }

/-- A record whose date/datetime strings do not parse (`Invalid Date`). -/
def recNoDate : EventRec :=
  initRecord
    { typeAttr := some "workshop"
      titleText := some "Story Time"
      descText := some "Weekly story time."
      locText := some "Location: Main Hall" }

/-- A record whose host DOM throws during extraction. -/
def recFault : EventRec := initRecord { extractFault := true }

/-- A fully populated record with a parseable start datetime
(2025-06-01T10:00 local/UTC). -/
def recStory : EventRec :=
  initRecord
    { typeAttr := some "children"
      dateParsed := some { year := 2025, month := 5, day := 1, ms := 0 }
      titleText := some "Story Time"
      exportId := some "story-time"
      descText := some "Weekly story time.\nAll ages welcome."
      locText := some "Location: Main Hall"
      startParsed := some { year := 2025, month := 5, day := 1, ms := 36000000 } }

/-! ### Helper lemmas -/

theorem coreOf_markVisibility (b : Bool) (e : EventRec) :
    coreOf (markVisibility b e) = coreOf e := by
  cases b <;> rfl

theorem markVisibility_coreOf (b : Bool) (e : EventRec) :
    markVisibility b (coreOf e) = markVisibility b e := by
  cases b <;> cases e <;> rfl

theorem isVisibleRec_coreOf (t d : String) (now : DateTime) (e : EventRec) :
    isVisibleRec t d now (coreOf e) = isVisibleRec t d now e := rfl

theorem coreOf_showAll (e : EventRec) :
    coreOf { e with display := "", hidden := some "false" } = coreOf e := by
  cases e; rfl

theorem filter_applyFilters (t d : String) (now : DateTime) (l : List EventRec) :
    ((applyFilters t d now l).recs.filter fun e => !(e.hidden == some "true")) =
      (l.filter (isVisibleRec t d now)).map (markVisibility true) := by
  show ((l.map fun e => markVisibility (isVisibleRec t d now e) e).filter
      fun e => !(e.hidden == some "true")) = _
  rw [List.filter_map]
  have h1 : (l.filter fun e =>
      !((markVisibility (isVisibleRec t d now e) e).hidden == some "true")) =
      l.filter (isVisibleRec t d now) := by
    apply List.filter_congr
    intro e _
    cases hb : isVisibleRec t d now e <;> simp [markVisibility, hb]
  have h2 : ∀ e ∈ l.filter (isVisibleRec t d now),
      markVisibility (isVisibleRec t d now e) e = markVisibility true e := by
    intro e he
    rw [(List.mem_filter.mp he).2]
  calc (l.filter fun e =>
        (fun x => !(x.hidden == some "true")) ((fun e => markVisibility (isVisibleRec t d now e) e) e)).map
        (fun e => markVisibility (isVisibleRec t d now e) e)
      = (l.filter (isVisibleRec t d now)).map
        (fun e => markVisibility (isVisibleRec t d now e) e) := by rw [h1]
    _ = (l.filter (isVisibleRec t d now)).map (markVisibility true) :=
        List.map_congr_left h2

theorem filter_cores (t d : String) (now : DateTime) (l : List EventRec) :
    (l.filter (isVisibleRec t d now)).map (markVisibility true) =
      ((l.map coreOf).filter (isVisibleRec t d now)).map (markVisibility true) := by
  rw [List.filter_map]
  have h1 : (l.filter ((isVisibleRec t d now) ∘ coreOf)) =
      l.filter (isVisibleRec t d now) :=
    List.filter_congr fun e _ => isVisibleRec_coreOf t d now e
  rw [h1, List.map_map]
  exact List.map_congr_left fun e _ => (markVisibility_coreOf true e).symm

theorem runOp_cores (op : ControllerOp) (l : List EventRec) :
    ((runOp op l).map coreOf).Perm (l.map coreOf) := by
  cases op with
  | filterOp t d now =>
    show (((applyFilters t d now l).recs).map coreOf).Perm (l.map coreOf)
    have : ((applyFilters t d now l).recs).map coreOf = l.map coreOf := by
      show ((l.map fun e => markVisibility (isVisibleRec t d now e) e).map coreOf) = _
      rw [List.map_map]
      exact List.map_congr_left fun e _ => coreOf_markVisibility _ e
    rw [this]
  | sortOp k =>
    exact (List.perm_insertionSort (sortKeeps k) l).map coreOf
  | clearOp =>
    show (((clearFilters l).recs).map coreOf).Perm (l.map coreOf)
    have h1 : (((clearFilters l).recs).map coreOf).Perm
        ((l.map fun e => { e with display := "", hidden := some "false" }).map coreOf) :=
      (List.perm_insertionSort (sortKeeps "date-asc") _).map coreOf
    have h2 : ((l.map fun e => { e with display := "", hidden := some "false" }).map coreOf) =
        l.map coreOf := by
      rw [List.map_map]
      exact List.map_congr_left fun e _ => coreOf_showAll e
    rw [h2] at h1
    exact h1

theorem visibleAfterFilter_congr (t d : String) (now : DateTime)
    {l₁ l₂ : List EventRec} (h : (l₁.map coreOf).Perm (l₂.map coreOf)) :
    visibleAfterFilter t d now l₁ = visibleAfterFilter t d now l₂ := by
  unfold visibleAfterFilter
  rw [Multiset.coe_eq_coe, filter_applyFilters t d now l₁, filter_applyFilters t d now l₂,
    filter_cores t d now l₁, filter_cores t d now l₂]
  exact (h.filter (isVisibleRec t d now)).map (markVisibility true)

/-! ### Claim theorems -/

/-- C1 (counterexample): with two records of which only one is upcoming,
filtering by type "workshop" and then clearing leaves 2 records visible —
the total record count — while the number of records with `date >= today`
at local midnight is 1, so the visible count after `clearFilters()` does
not equal the upcoming-events count. -/
theorem claim1_counterexample :
    ¬ (visibleCountOf (clearFilters
          ((applyFilters "workshop" "upcoming" dtJun15 [recPast, recFuture]).recs)).recs =
        upcomingCount dtJun15 [recPast, recFuture]) := by
  decide

/-- C1 (amended): after `clearFilters()` runs, the number of visible
records equals the total record count — every record is marked visible and
the status message reports `Showing all N events` — not the upcoming-events
count (the date control is reset to "upcoming" but the filter is not
re-applied). -/
theorem claim1_amended (events : List EventRec) :
    visibleCountOf (clearFilters events).recs = events.length ∧
    (clearFilters events).status =
      "Showing all " ++ toString events.length ++ " events" := by
  constructor
  · unfold visibleCountOf clearFilters applySorting
    rw [(List.perm_insertionSort _ _).countP_eq, List.countP_map]
    apply List.countP_eq_length.mpr
    intro a _
    rfl
  · rfl

/-- C2 (code bug, evaluated at the failing input): a record whose date and
datetime strings are unparseable is indeed hidden by every date-bucketed
filter and shown under "all" — but exporting it is not exception-safe: both
the bulk iCal export and the single-record export throw
(`RangeError: Invalid time value` from `toISOString` in `createICalEvent`),
and the exception escapes the controller. -/
theorem claim2_invalid_date_throws :
    exportToICal [recNoDate] "123-abc" dtJun15 = Except.error "Invalid time value" ∧
    exportSingleEvent recNoDate "123-abc" dtJun15 = Except.error "Invalid time value" ∧
    isVisibleRec "all" "upcoming" dtJun15 recNoDate = false ∧
    isVisibleRec "all" "this-week" dtJun15 recNoDate = false ∧
    isVisibleRec "all" "this-month" dtJun15 recNoDate = false ∧
    isVisibleRec "all" "next-month" dtJun15 recNoDate = false ∧
    isVisibleRec "all" "all" dtJun15 recNoDate = true :=
  ⟨rfl, rfl, rfl, rfl, rfl, rfl, rfl⟩

/-- C4: whenever data extraction fails during a single-record export, the
failure is handled locally: the status message is exactly
"Unable to export event", no file is produced, and the operation returns
normally (no exception). -/
theorem claim4_extract_failure (e : EventRec) (uidBase : String) (now : DateTime)
    (h : extractEventData e = none) :
    exportSingleEvent e uidBase now = Except.ok
      { file := none, status := some "Unable to export event", announce := none } := by
  unfold exportSingleEvent
  rw [h]

/-- C4 (witness): a record whose host DOM throws during extraction. -/
theorem claim4_witness :
    extractEventData recFault = none ∧
    exportSingleEvent recFault "u" dtJun15 = Except.ok
      { file := none, status := some "Unable to export event", announce := none } :=
  ⟨rfl, claim4_extract_failure recFault "u" dtJun15 rfl⟩

/-- C5: any export over the visible set invoked while zero records are
visible is refused: no URL is opened, no file is produced, and the status
message is exactly `noEventsMsg` (which contains "No events to export."). -/
theorem claim5_zero_visible (events : List EventRec) (uidBase : String)
    (now : DateTime) (h : (visibleIn events).length = 0) :
    exportToGoogleCalendar events =
      Except.ok { opened := none, status := some noEventsMsg } ∧
    exportToICal events uidBase now =
      Except.ok { file := none, status := some noEventsMsg } := by
  constructor
  · unfold exportToGoogleCalendar
    simp [h]
  · unfold exportToICal
    simp [h]

/-- C5 (witness): the empty record collection. -/
theorem claim5_witness :
    (visibleIn ([] : List EventRec)).length = 0 ∧
    (exportToGoogleCalendar ([] : List EventRec) =
        Except.ok { opened := none, status := some noEventsMsg } ∧
      exportToICal ([] : List EventRec) "u" dtJun15 =
        Except.ok { file := none, status := some noEventsMsg }) :=
  ⟨rfl, claim5_zero_visible [] "u" dtJun15 rfl⟩

/-- C8: the visible set produced by `applyFilters` depends only on the
record collection (as a multiset of records) and the filter pair evaluated
at a fixed "today": running it after any sequence of prior filter, sort or
clear operations — in particular repeating it — yields the same visible
multiset of records. -/
theorem claim8_filter_determinism (ops : List ControllerOp) (t d : String)
    (now : DateTime) (events : List EventRec) :
    visibleAfterFilter t d now (runOps ops events) =
      visibleAfterFilter t d now events := by
  induction ops generalizing events with
  | nil => rfl
  | cons op ops ih =>
    have hstep : runOps (op :: ops) events = runOps ops (runOp op events) := rfl
    rw [hstep, ih (runOp op events)]
    exact visibleAfterFilter_congr t d now (runOp_cores op events)

/-- C9 (counterexample): a record constructed from a host element that
lacks a `data-event-type` attribute gets exactly the reserved wildcard
"all" as its type, contradicting the claim that no loaded record has type
"all". -/
theorem claim9_counterexample :
    ({} : RawElem).typeAttr = none ∧ (initRecord {}).type = "all" :=
  ⟨rfl, rfl⟩

/-- C9 (amended): a loaded record's type is the reserved wildcard "all"
exactly when its host element's type attribute is missing, empty, or
literally "all" — so records with a missing type attribute do receive the
wildcard as their type, and only records with a non-empty attribute other
than "all" avoid it. -/
theorem claim9_amended (r : RawElem) :
    (initRecord r).type = "all" ↔
      r.typeAttr = none ∨ r.typeAttr = some "" ∨ r.typeAttr = some "all" := by
  cases h : r.typeAttr with
  | none => simp [initRecord, jsOrStr, h]
  | some s =>
    by_cases hs : s = ""
    · subst hs
      simp [initRecord, jsOrStr, h]
    · simp [initRecord, jsOrStr, h, hs]

/-- C10: visibility bookkeeping is consistent: after any `applyFilters` or
`clearFilters` call every record has `data-hidden = "true"` exactly when
its display style is "none", and the selection the export operations make
(`visibleIn`, records whose `data-hidden` is not "true") coincides with
the set of records currently shown (display not "none"). -/
theorem claim10_visibility_consistency (t d : String) (now : DateTime)
    (events : List EventRec) :
    ((applyFilters t d now events).recs.all fun e =>
        (e.hidden == some "true") == (e.display == "none")) = true ∧
    ((clearFilters events).recs.all fun e =>
        (e.hidden == some "true") == (e.display == "none")) = true ∧
    visibleIn (applyFilters t d now events).recs =
      (applyFilters t d now events).recs.filter (fun e => !(e.display == "none")) ∧
    visibleIn (clearFilters events).recs =
      (clearFilters events).recs.filter (fun e => !(e.display == "none")) := by
  have hmark : ∀ (b : Bool) (e : EventRec),
      (((markVisibility b e).hidden == some "true") ==
        ((markVisibility b e).display == "none")) = true := by
    intro b e
    cases b <;> rfl
  have hfilter : ((applyFilters t d now events).recs.all fun e =>
      (e.hidden == some "true") == (e.display == "none")) = true := by
    show ((events.map fun e => markVisibility (isVisibleRec t d now e) e).all _) = true
    rw [List.all_map]
    apply List.all_eq_true.mpr
    intro e _
    exact hmark _ e
  have hclear : ((clearFilters events).recs.all fun e =>
      (e.hidden == some "true") == (e.display == "none")) = true := by
    apply List.all_eq_true.mpr
    intro x hx
    rw [show (clearFilters events).recs = applySorting "date-asc"
        (events.map fun e => { e with display := "", hidden := some "false" }) from rfl,
      applySorting, List.mem_insertionSort] at hx
    obtain ⟨e, _, rfl⟩ := List.mem_map.mp hx
    rfl
  have hinv : ∀ l : List EventRec,
      (l.all fun e => (e.hidden == some "true") == (e.display == "none")) = true →
      visibleIn l = l.filter fun e => !(e.display == "none") := by
    intro l hl
    apply List.filter_congr
    intro e he
    have hb : ((e.hidden == some "true") == (e.display == "none")) = true :=
      List.all_eq_true.mp hl e he
    rw [beq_iff_eq.mp hb]
  exact ⟨hfilter, hclear, hinv _ hfilter, hinv _ hclear⟩

/-- C3 (counterexample): on January 31, 2025, a record dated February 15,
2025 is *not* shown by the `next-month` filter, although the claim's
reading of "same calendar month and year as today + 1 month" says it must
be: `setMonth(getMonth() + 1)` turns January 31 into March 3, so the code
compares against March, not February. -/
theorem claim3_counterexample :
    isVisibleRec "all" "next-month" dtJan31 recFeb15 = false ∧
    specVisible "all" "next-month" dtJan31 recFeb15 = true ∧
    isVisibleRec "all" "next-month" dtJan31 recFeb15 ≠
      specVisible "all" "next-month" dtJan31 recFeb15 := by
  decide

/-- C3 (amended): for each of the five defined date filter values, a
record is visible iff both predicates hold — the type filter is "all" or
equals the record's type, AND the date bucket as the claim states it,
except that `next-month` refers to the month and year of
`jsAddMonth today` (JavaScript `setMonth(m+1)` semantics, which skip past
the next month when today's day of month exceeds its length). -/
theorem claim3_amended (t selectedDate : String) (now : DateTime) (e : EventRec)
    (h : selectedDate = "all" ∨ selectedDate = "upcoming" ∨
      selectedDate = "this-week" ∨ selectedDate = "this-month" ∨
      selectedDate = "next-month") :
    isVisibleRec t selectedDate now e =
      (specTypePass t e && amendedDatePass selectedDate (dtMid now) e) := by
  have hv : (!(t != "all" && e.type != t)) = specTypePass t e := by
    cases ht : t == "all" <;> cases he : e.type == t <;>
      simp [specTypePass, bne, ht, he]
  rw [← hv]
  rcases h with rfl | rfl | rfl | rfl | rfl <;>
    cases hvb : (!(t != "all" && e.type != t)) <;>
      simp [isVisibleRec, amendedDatePass, hvb]

/-- C3 (witness): the amended equivalence evaluated for the "upcoming"
bucket on a concrete past workshop record. -/
theorem claim3_witness :
    ("upcoming" = "all" ∨ "upcoming" = "upcoming" ∨ "upcoming" = "this-week" ∨
      "upcoming" = "this-month" ∨ "upcoming" = "next-month") ∧
    isVisibleRec "workshop" "upcoming" dtJun15 recPast =
      (specTypePass "workshop" recPast &&
        amendedDatePass "upcoming" (dtMid dtJun15) recPast) :=
  ⟨Or.inr (Or.inl rfl),
    claim3_amended "workshop" "upcoming" dtJun15 recPast (Or.inr (Or.inl rfl))⟩

/-- C6: for a record whose start datetime parses, the single-record export
produces a download whose content is one `VEVENT` inside the `VCALENDAR`
wrapper, with a UID line, a DTSTAMP creation timestamp, DTSTART and DTEND
rendered by `formatDate` (UTC `YYYYMMDDThhmmssZ` form) where the end is
`addHour` of the start (exactly one hour later), SUMMARY equal to the
extracted title, DESCRIPTION with every newline replaced by the literal
two-character `\n`, a LOCATION line, and the fixed `STATUS:CONFIRMED`. -/
theorem claim6_single_export (e : EventRec) (uidBase : String) (now : DateTime)
    (d : DateTime) (hf : e.raw.extractFault = false)
    (hd : e.raw.startParsed = some d) :
    exportSingleEvent e uidBase now = Except.ok
      { file := some
          (sanitizeFileName (jsOrStr (e.raw.titleText.map String.trim) "Library Event"),
            calHeader ++
              ("BEGIN:VEVENT\n" ++
                "UID:" ++ uidBase ++ "@unionbeachlibrary.org\n" ++
                "DTSTAMP:" ++ formatDate now ++ "\n" ++
                "DTSTART:" ++ formatDate d ++ "\n" ++
                "DTEND:" ++ formatDate (addHour d) ++ "\n" ++
                "SUMMARY:" ++ jsOrStr (e.raw.titleText.map String.trim) "Library Event" ++ "\n" ++
                "DESCRIPTION:" ++
                  (jsOrStr (e.raw.descText.map String.trim) "").replace "\n" "\\n" ++ "\n" ++
                "LOCATION:" ++
                  jsOrStr (e.raw.locText.map fun s => (replaceFirst s "Location:" "").trim)
                    "Union Beach Memorial Library" ++ "\n" ++
                "STATUS:CONFIRMED\n" ++
                "END:VEVENT\n") ++ "END:VCALENDAR\n")
        status := none
        announce := some ("Exported " ++ jsOrStr (e.raw.titleText.map String.trim) "Library Event" ++
          " to calendar") } := by
  have he : extractEventData e = some
      { title := jsOrStr (e.raw.titleText.map String.trim) "Library Event"
        description := jsOrStr (e.raw.descText.map String.trim) ""
        location := jsOrStr
          (e.raw.locText.map fun s => (replaceFirst s "Location:" "").trim)
          "Union Beach Memorial Library"
        startDate := some d
        endDate := some (addHour d) } := by
    unfold extractEventData
    rw [hf, hd]
    rfl
  unfold exportSingleEvent
  rw [he]
  rfl

/-- C6 (witness): the concrete story-time record with start
2025-06-01T10:00. -/
theorem claim6_witness :
    recStory.raw.extractFault = false ∧
    recStory.raw.startParsed = some { year := 2025, month := 5, day := 1, ms := 36000000 } ∧
    exportSingleEvent recStory "u1" dtJun15 = Except.ok
      { file := some
          (sanitizeFileName (jsOrStr (recStory.raw.titleText.map String.trim) "Library Event"),
            calHeader ++
              ("BEGIN:VEVENT\n" ++
                "UID:" ++ "u1" ++ "@unionbeachlibrary.org\n" ++
                "DTSTAMP:" ++ formatDate dtJun15 ++ "\n" ++
                "DTSTART:" ++ formatDate { year := 2025, month := 5, day := 1, ms := 36000000 } ++ "\n" ++
                "DTEND:" ++ formatDate (addHour { year := 2025, month := 5, day := 1, ms := 36000000 }) ++ "\n" ++
                "SUMMARY:" ++ jsOrStr (recStory.raw.titleText.map String.trim) "Library Event" ++ "\n" ++
                "DESCRIPTION:" ++
                  (jsOrStr (recStory.raw.descText.map String.trim) "").replace "\n" "\\n" ++ "\n" ++
                "LOCATION:" ++
                  jsOrStr (recStory.raw.locText.map fun s => (replaceFirst s "Location:" "").trim)
                    "Union Beach Memorial Library" ++ "\n" ++
                "STATUS:CONFIRMED\n" ++
                "END:VEVENT\n") ++ "END:VCALENDAR\n")
        status := none
        announce := some ("Exported " ++ jsOrStr (recStory.raw.titleText.map String.trim) "Library Event" ++
          " to calendar") } :=
  ⟨rfl, rfl, claim6_single_export recStory "u1" dtJun15 _ rfl rfl⟩

/-- C7: `applySorting` is stable with respect to ties — for any sort key,
two records on which the comparator does not order the later one strictly
first keep their relative original order (as a sublist); and records
sharing the same date are always such a pair for `date-asc` (their
comparator value is 0). -/
theorem claim7_sort_stability :
    (∀ (sortType : String) (l : List EventRec) (a b : EventRec),
        cmpGtB sortType a b = false → [a, b].Sublist l →
        [a, b].Sublist (applySorting sortType l)) ∧
    (∀ a b : EventRec, a.date = b.date → cmpGtB "date-asc" a b = false) := by
  constructor
  · intro st l a b hab hl
    exact List.pair_sublist_insertionSort hab hl
  · intro a b h
    show (match a.date, b.date with
      | some x, some y => dtLtB y x
      | _, _ => false) = false
    rw [h]
    cases b.date with
    | none => rfl
    | some x => simp [dtLtB, dtLeB]

/-- C7 (witness): two distinct records sharing the date 2025-02-15 keep
their relative order under a `date-asc` sort. -/
theorem claim7_witness :
    cmpGtB "date-asc" recFeb15 recFeb15b = false ∧
    [recFeb15, recFeb15b].Sublist (applySorting "date-asc" [recFeb15, recFeb15b]) :=
  ⟨by decide,
    claim7_sort_stability.1 "date-asc" [recFeb15, recFeb15b] recFeb15 recFeb15b
      (by decide) (List.Sublist.refl _)⟩

end UBCal
